import Mathlib

/-!
Shallow embedding of the furniture-visualizer client (2D editor, 3D viewer,
design/model services) and proofs of the specification claims about it.

Numbers that the JavaScript source manipulates (coordinates, sizes,
rotations, scale factors) are modelled as exact rationals `ℚ`; every value
appearing in the claims is exactly representable, and the concrete
computations the claims mention round-trip exactly in IEEE doubles as well.
Identifiers produced by `Date.now()` are modelled as integers supplied as an
explicit parameter (ambient wall-clock time).
-/

namespace FurnitureViz

/-! ## Data model (designService.js seed data, Editor2D.jsx state) -/

/-- Room configuration: `roomConfig` objects (width/height in editor units,
floor color, optional wall color). -/
structure RoomConfig where
  width : ℚ
  height : ℚ
  color : String
  wallColor : Option String
deriving Repr, DecidableEq

/-- One placed furniture item, as stored in a design's `furniture` array.
`rotation` is optional: the seeded designs lack it and the code reads it as
`item.rotation || 0`. -/
structure FurnitureItem where
  id : ℤ
  x : ℚ
  y : ℚ
  width : ℚ
  height : ℚ
  fill : String
  name : String
  rotation : Option ℚ
deriving Repr, DecidableEq

/-- `item.rotation || 0` — missing rotation reads as 0 (and `0 || 0 = 0`). -/
def rotOf (item : FurnitureItem) : ℚ := item.rotation.getD 0

/-- A stored design record (shape of the objects in the
`furniture_designs` localStorage list). -/
structure Design where
  id : String
  name : String
  lastModified : String
  thumbnail : String
  userId : String
  roomConfig : RoomConfig
  furniture : List FurnitureItem
deriving Repr, DecidableEq

/-! ## JavaScript-style helpers -/

/-- `Array.prototype.findIndex`, with the `-1` result modelled as `none`. -/
def jsFindIndex (p : α → Bool) : List α → Option Nat
  | [] => none
  | a :: as => if p a then some 0 else (jsFindIndex p as).map (· + 1)

/-- JavaScript truncating division used by the `%` operator on numbers:
round the quotient toward zero. -/
def jsTrunc (q : ℚ) : ℤ := if 0 ≤ q then ⌊q⌋ else ⌈q⌉

/-- JavaScript `a % n` on numbers: remainder with the sign of the dividend. -/
def jsRem (a n : ℚ) : ℚ := a - n * jsTrunc (a / n)

/-- The members every plain object literal inherits from
`Object.prototype`: bracket access finds these (truthy function/object
values) when the key is not an own key of the object. -/
def objectPrototypeKeys : List String :=
  ["constructor", "hasOwnProperty", "isPrototypeOf", "propertyIsEnumerable",
   "toLocaleString", "toString", "valueOf", "__proto__",
   "__defineGetter__", "__defineSetter__", "__lookupGetter__",
   "__lookupSetter__"]

/-- The result of a JavaScript bracket access `obj[key]` on a plain
object literal: the own property's value, a property inherited from
`Object.prototype` (tagged with its name), or `undefined`. -/
inductive JsProp (α : Type) where
  | own (v : α)
  | inherited (name : String)
  | notPresent
deriving Repr, DecidableEq

/-- `obj[key]` on a plain object literal whose own entries are `table`:
own key first, then the `Object.prototype` chain, then `undefined`. -/
def jsGet {α : Type} (table : List (String × α)) (key : String) : JsProp α :=
  match table.lookup key with
  | some v => .own v
  | none => if key ∈ objectPrototypeKeys then .inherited key else .notPresent

/-- The value of `obj[key] || d`: either a table value (`val`) or a
member inherited from `Object.prototype` that the truthiness test of
`||` passes through unchanged (`protoProp`). -/
inductive LookupResult (α : Type) where
  | val (v : α)
  | protoProp (name : String)
deriving Repr, DecidableEq

/-- `TABLE[key] || d`, with `falsy` deciding JavaScript falsiness of the
own values (`0`, `""`); inherited `Object.prototype` members are
functions or objects and therefore always truthy. -/
def jsLookupOr {α : Type} (falsy : α → Bool) (table : List (String × α))
    (key : String) (d : α) : LookupResult α :=
  match jsGet table key with
  | .own v => if falsy v then .val d else .val v
  | .inherited name => .protoProp name
  | .notPresent => .val d

/-! ## Geometry/unit converter (Viewer3D.jsx lines 144-147, 206-208, 522-527)

`const scale = 0.02`, `roomWidth = design.roomConfig.width * scale`,
`x = (item.x * scale) - (roomWidth / 2) + (item.width * scale / 2)` and the
same shape for `z` from `item.y`/`roomConfig.height`/`item.height`. -/

/-- The fixed editor-to-world scale factor `0.02`. -/
def scale : ℚ := 2 / 100

/-- World X from editor x, room width (editor units), item width. -/
def toWorldX (editorX roomW itemW : ℚ) : ℚ :=
  editorX * scale - (roomW * scale) / 2 + itemW * scale / 2

/-- World Z from editor y, room height (editor units), item height. -/
def toWorldZ (editorY roomH itemH : ℚ) : ℚ :=
  editorY * scale - (roomH * scale) / 2 + itemH * scale / 2

/-! ## Furniture catalog (modelService.js) -/

/-- `MODEL_MAP`. -/
def MODEL_MAP : List (String × String) :=
  [("Sofa", "/models/canba.glb"), ("Table", "/models/table.glb"),
   ("Bed", "/models/bed-2.glb"), ("Bookshelf", "/models/bookshelf.glb"),
   ("Dresser", "/models/dresser.glb"), ("Plant", "/models/plant.glb"),
   ("default", "/models/cube.glb")]

/-- `MODEL_SCALES`. -/
def MODEL_SCALES : List (String × ℚ) :=
  [("Sofa", 1), ("Table", 18/100), ("Bed", 19/10), ("Bookshelf", 45/100),
   ("Dresser", 4/10), ("Plant", 3/10), ("default", 5/10)]

/-- `MODEL_Y_POSITIONS`. -/
def MODEL_Y_POSITIONS : List (String × ℚ) :=
  [("Sofa", 0), ("Table", 7/10), ("Bed", 5/10), ("Bookshelf", 5/10),
   ("Dresser", 3/10), ("Plant", 1/10), ("default", 0)]

/-- `MODEL_ROTATIONS`. -/
def MODEL_ROTATIONS : List (String × ℚ) :=
  [("Sofa", 0), ("Table", 0), ("Bed", 0), ("Bookshelf", 0),
   ("Dresser", 0), ("Plant", 0), ("default", 0)]

/-- One entry of `TOP_DOWN_ADJUSTMENTS`. -/
structure TopDownSettings where
  cameraHeight : ℚ
  rotationOffset : ℚ
  scaleFactor : ℚ
deriving Repr, DecidableEq

/-- `TOP_DOWN_ADJUSTMENTS`. -/
def TOP_DOWN_ADJUSTMENTS : List (String × TopDownSettings) :=
  [("Sofa", ⟨8, 0, 13/10⟩), ("Table", ⟨7, 0, 12/10⟩), ("Bed", ⟨12, 0, 15/10⟩),
   ("Bookshelf", ⟨10, 0, 14/10⟩), ("Dresser", ⟨6, 0, 12/10⟩),
   ("Plant", ⟨5, 0, 1⟩), ("default", ⟨8, 0, 12/10⟩)]

/-- `modelService.getModelPath(furnitureType)`:
`MODEL_MAP[furnitureType] || MODEL_MAP.default` (the bracket access walks
the prototype chain; `.default` is an own key). -/
def getModelPath (furnitureType : String) : LookupResult String :=
  jsLookupOr (fun s => s == "") MODEL_MAP furnitureType
    ((MODEL_MAP.lookup "default").getD "")

/-- Result of `modelService.getModelConfig`: each field is the value of a
`TABLE[furnitureType] || TABLE.default` expression. -/
structure ModelConfig where
  modelScale : LookupResult ℚ
  yPosition : LookupResult ℚ
  rotation : LookupResult ℚ
deriving Repr, DecidableEq

/-- `modelService.getModelConfig(furnitureType)`: each field is
`TABLE[furnitureType] || TABLE.default`. -/
def getModelConfig (furnitureType : String) : ModelConfig :=
  { modelScale := jsLookupOr (fun q => q == 0) MODEL_SCALES furnitureType
      ((MODEL_SCALES.lookup "default").getD 0),
    yPosition := jsLookupOr (fun q => q == 0) MODEL_Y_POSITIONS furnitureType
      ((MODEL_Y_POSITIONS.lookup "default").getD 0),
    rotation := jsLookupOr (fun q => q == 0) MODEL_ROTATIONS furnitureType
      ((MODEL_ROTATIONS.lookup "default").getD 0) }

/-- `modelService.getTopDownViewSettings(modelType)`:
`TOP_DOWN_ADJUSTMENTS[modelType] || TOP_DOWN_ADJUSTMENTS.default` (its
own values are objects, hence never falsy). -/
def getTopDownViewSettings (modelType : String) : LookupResult TopDownSettings :=
  jsLookupOr (fun _ => false) TOP_DOWN_ADJUSTMENTS modelType
    ((TOP_DOWN_ADJUSTMENTS.lookup "default").getD ⟨8, 0, 12/10⟩)

/-- The type names carrying their own catalog entries (the non-`default`
keys of the catalog tables). -/
def knownTypeNames : List String :=
  ["Sofa", "Table", "Bed", "Bookshelf", "Dresser", "Plant", "default"]

/-! ## Design service (designService.js)

The localStorage list of designs is modelled as an explicit
`List Design` threaded through each operation; `new Date().toISOString()`
is an explicit `now` parameter. -/

/-- `getDesign(id)`: find by id, throw `Error('Design not found')` when
absent. -/
def getDesign (designs : List Design) (id : String) : Except String Design :=
  match designs.find? (fun d => d.id == id) with
  | none => .error "Design not found"
  | some d => .ok d

/-- A partial design update (the `designData` object handed to
`updateDesign`): absent fields are `none`. -/
structure PartialDesign where
  id : Option String
  name : Option String
  lastModified : Option String
  thumbnail : Option String
  userId : Option String
  roomConfig : Option RoomConfig
  furniture : Option (List FurnitureItem)
deriving Repr, DecidableEq

/-- The object spread `{ ...designs[index], ...designData,
lastModified: new Date().toISOString() }`: fields present in `designData`
override the stored ones, and `lastModified` is then overwritten with the
fresh timestamp regardless. -/
def mergeDesign (d : Design) (p : PartialDesign) (now : String) : Design :=
  { id := p.id.getD d.id,
    name := p.name.getD d.name,
    lastModified := now,
    thumbnail := p.thumbnail.getD d.thumbnail,
    userId := p.userId.getD d.userId,
    roomConfig := p.roomConfig.getD d.roomConfig,
    furniture := p.furniture.getD d.furniture }

/-- `updateDesign(id, designData)`: `findIndex`, throw when `-1` (before
any write, so the stored list is returned unchanged in that case),
otherwise replace the found slot with the merge and write the list back. -/
def updateDesign (designs : List Design) (id : String) (p : PartialDesign)
    (now : String) : List Design × Except String Design :=
  match jsFindIndex (fun d => d.id == id) designs with
  | none => (designs, .error "Design not found")
  | some idx =>
    match designs[idx]? with
    | none => (designs, .error "Design not found")
    | some d =>
      let updated := mergeDesign d p now
      (designs.set idx updated, .ok updated)

/-- `deleteDesign(id)`: filter the id out and return `true`; never throws. -/
def deleteDesign (designs : List Design) (id : String) : List Design × Bool :=
  (designs.filter (fun d => !(d.id == id)), true)

/-! ## 2D editor (Editor2D.jsx) -/

/-- One row of the `furnitureTypes` table. -/
structure FurnitureType where
  typeKey : String
  name : String
  width : ℚ
  height : ℚ
  fill : String
deriving Repr, DecidableEq

/-- `furnitureTypes` (icons omitted: never read by the modelled logic). -/
def furnitureTypes : List FurnitureType :=
  [⟨"sofa", "Sofa", 120, 70, "#8B4513"⟩,
   ⟨"table", "Table", 80, 80, "#A0522D"⟩,
   ⟨"bed", "Bed", 160, 200, "#CD853F"⟩,
   ⟨"bookshelf", "Bookshelf", 60, 120, "#D2B48C"⟩,
   ⟨"dresser", "Dresser", 100, 50, "#8B4513"⟩,
   ⟨"plant", "Plant", 40, 40, "#228B22"⟩]

/-- `addFurniture(type)`: resolve the type (falling back to the first
entry), build the new item centered in the room with `id: Date.now()`
(`now` is the ambient clock value) and `rotation: 0`, append it, select
it.  Returns the new furniture list and the new selected id. -/
def addFurniture (rc : RoomConfig) (furniture : List FurnitureItem)
    (ftype : String) (now : ℤ) : List FurnitureItem × ℤ :=
  let furnitureType :=
    (furnitureTypes.find? (fun f => f.typeKey == ftype)).getD
      (furnitureTypes.getD 0 ⟨"sofa", "Sofa", 120, 70, "#8B4513"⟩)
  let newItem : FurnitureItem :=
    { id := now,
      x := rc.width / 2 - furnitureType.width / 2,
      y := rc.height / 2 - furnitureType.height / 2,
      width := furnitureType.width,
      height := furnitureType.height,
      fill := furnitureType.fill,
      name := furnitureType.name,
      rotation := some 0 }
  (furniture ++ [newItem], newItem.id)

/-- `deleteSelected()`: with nothing selected it does nothing; otherwise it
looks the selected item up with `find`, filters the id out and clears the
selection, then builds the `Deleted ...` notification from the looked-up
item.  When the selected id is absent from the list the `find` returned
`undefined`, so `itemToDelete.name` raises a TypeError — after the state
updates already ran.  Result: new furniture list, new selection, and the
notification outcome (`none` when nothing was selected; `.error` is the
thrown TypeError). -/
def deleteSelected (furniture : List FurnitureItem) (selectedId : Option ℤ) :
    List FurnitureItem × Option ℤ × Option (Except String String) :=
  match selectedId with
  | none => (furniture, selectedId, none)
  | some sid =>
    let itemToDelete := furniture.find? (fun it => it.id == sid)
    let furniture1 := furniture.filter (fun it => !(it.id == sid))
    match itemToDelete with
    | some it => (furniture1, none, some (.ok ("Deleted " ++ it.name)))
    | none =>
      (furniture1, none,
       some (.error "TypeError: Cannot read properties of undefined (reading name)"))

/-- Editor `updateFurnitureRotation(degrees)`: store `degrees` verbatim on
the selected item (no normalization). -/
def updateFurnitureRotationEditor (furniture : List FurnitureItem)
    (selectedId : Option ℤ) (degrees : ℚ) : List FurnitureItem :=
  match selectedId with
  | none => furniture
  | some sid =>
    furniture.map (fun it =>
      if it.id == sid then { it with rotation := some degrees } else it)

/-- The editor r-key handler:
`updateFurnitureRotation(((selectedItem?.rotation || 0) + 15) % 360)`. -/
def rotateKeyEditor (furniture : List FurnitureItem) (selectedId : Option ℤ) :
    List FurnitureItem :=
  match selectedId with
  | none => furniture
  | some sid =>
    let selectedItem := furniture.find? (fun it => it.id == sid)
    updateFurnitureRotationEditor furniture selectedId
      (jsRem ((selectedItem.map rotOf).getD 0 + 15) 360)

/-- The Konva `onTransformEnd` commit: store the node's position, scaled
size and raw `node.rotation()` on the item (no normalization). -/
def onTransformEnd (furniture : List FurnitureItem) (itemId : ℤ)
    (nodeX nodeY nodeW nodeH scaleX scaleY nodeRot : ℚ) : List FurnitureItem :=
  furniture.map (fun f =>
    if f.id == itemId then
      { f with x := nodeX, y := nodeY, width := nodeW * scaleX,
               height := nodeH * scaleY, rotation := some nodeRot }
    else f)

/-! ## Preview cache (Editor2D.jsx `createTopDownImage`, `generatePreviews`)

The cache key is the template string
`` `${modelName}-${color}-${rotation}` ``.  Number-to-string conversion is
modelled injectively as `num/den`; the claims only ever compare keys for
equality, never against a literal JavaScript rendering. -/

/-- Stringification of a rational for cache keys. -/
def ratStr (q : ℚ) : String := toString q.num ++ "/" ++ toString q.den

/-- The composite cache key `` `${modelName}-${color}-${rotation}` ``. -/
def cacheKey (modelName color : String) (rotation : ℚ) : String :=
  modelName ++ "-" ++ color ++ "-" ++ ratStr rotation

/-- The cache key of a furniture item
(`` `${item.name}-${item.fill}-${item.rotation || 0}` ``). -/
def itemCacheKey (item : FurnitureItem) : String :=
  cacheKey item.name item.fill (rotOf item)

/-- `createTopDownImage(modelName, color, rotation)`: return the module
cache entry when present; otherwise run the expensive offscreen render
(`producer`; `none` models the catch path returning `null`), caching the
data URL only when it is non-null.  Returns the result and the updated
module cache; the boolean records whether the expensive render ran. -/
def createTopDownImage (producer : String → String → ℚ → Option String)
    (cache : List (String × String)) (modelName color : String)
    (rotation : ℚ) : Option String × List (String × String) × Bool :=
  let key := cacheKey modelName color rotation
  match cache.lookup key with
  | some v => (some v, cache, false)
  | none =>
    match producer modelName color rotation with
    | some dataURL => (some dataURL, (key, dataURL) :: cache, true)
    | none => (none, cache, true)

/-- State threaded through one `generatePreviews` pass: the local
`newPreviews` copy of the preview map, the module-level
`topDownImageCache`, and the log of `createTopDownImage` invocations
issued by the pass (one key per invocation). -/
structure GenState where
  newPreviews : List (String × String)
  topDownCache : List (String × String)
  callLog : List String
deriving Repr, DecidableEq

/-- One iteration of the `for (const item of furniture)` loop in
`generatePreviews`: skip when `newPreviews[cacheKey]` is already set,
otherwise call `createTopDownImage` and record the image when one came
back. -/
def generatePreviewsStep (producer : String → String → ℚ → Option String)
    (st : GenState) (item : FurnitureItem) : GenState :=
  let key := itemCacheKey item
  match st.newPreviews.lookup key with
  | some _ => st
  | none =>
    let (res, cache1, _) :=
      createTopDownImage producer st.topDownCache item.name item.fill (rotOf item)
    match res with
    | some imageUrl =>
      { newPreviews := st.newPreviews ++ [(key, imageUrl)],
        topDownCache := cache1, callLog := st.callLog ++ [key] }
    | none =>
      { st with topDownCache := cache1, callLog := st.callLog ++ [key] }

/-- One full `generatePreviews` pass over the furniture list (the awaits
run sequentially, so the loop is a fold). -/
def generatePreviews (producer : String → String → ℚ → Option String)
    (modelPreviews topDownCache0 : List (String × String))
    (furniture : List FurnitureItem) : GenState :=
  furniture.foldl (generatePreviewsStep producer) ⟨modelPreviews, topDownCache0, []⟩

/-! ## 3D viewer (Viewer3D.jsx) -/

/-- The four keyboard/button move directions. -/
inductive Direction
  | left | right | up | down
deriving Repr, DecidableEq

/-- `const moveDistance = 10`. -/
def moveDistance : ℚ := 10

/-- The clamped new editor x of `moveSelectedFurniture`:
`Math.max(0, x - 10)` / `Math.min(roomWidth - width, x + 10)`. -/
def moveNewX (rc : RoomConfig) (item : FurnitureItem) : Direction → ℚ
  | .left => max 0 (item.x - moveDistance)
  | .right => min (rc.width - item.width) (item.x + moveDistance)
  | _ => item.x

/-- The clamped new editor y of `moveSelectedFurniture`:
`Math.max(0, y - 10)` / `Math.min(roomHeight - height, y + 10)`. -/
def moveNewY (rc : RoomConfig) (item : FurnitureItem) : Direction → ℚ
  | .up => max 0 (item.y - moveDistance)
  | .down => min (rc.height - item.height) (item.y + moveDistance)
  | _ => item.y

/-- Rotation normalization in `rotateSelectedFurniture`:
`let r = (current + degrees) % 360; if (r < 0) r += 360`. -/
def normRot (x : ℚ) : ℚ :=
  let r := jsRem x 360
  if r < 0 then r + 360 else r

/-- A scene-graph node carrying `userData.itemId` (absent on the fallback
box meshes and on room geometry), its position, and its y-rotation.
`rotYdeg` records the y-rotation in degrees, i.e. the argument the code
passes to `THREE.MathUtils.degToRad` (an injective rescaling). -/
structure SceneNode where
  itemId : Option ℤ
  posX : ℚ
  posY : ℚ
  posZ : ℚ
  rotYdeg : ℚ
deriving Repr, DecidableEq

/-- The viewer state the transform edits touch: the in-memory design, the
scene graph (flattened to the traversed node list), and the selected id. -/
structure ViewerState where
  design : Design
  scene : List SceneNode
  selectedModelId : Option ℤ
deriving Repr, DecidableEq

/-- `moveSelectedFurniture(direction)`: bail out when nothing is selected
or the item is not in the furniture list; compute the clamped new editor
position and its world coordinates; traverse the scene updating every node
whose `userData.itemId` matches (recording whether any did); when none
matched, warn and leave the data model untouched; otherwise store the new
position in the furniture list.  (The traversal mutates no node when none
matches, so returning the state unchanged is exact.) -/
def moveSelectedFurniture (s : ViewerState) (dir : Direction) : ViewerState :=
  match s.selectedModelId with
  | none => s
  | some sid =>
    match jsFindIndex (fun it => it.id == sid) s.design.furniture with
    | none => s
    | some idx =>
      match s.design.furniture[idx]? with
      | none => s
      | some item =>
        let newX := moveNewX s.design.roomConfig item dir
        let newY := moveNewY s.design.roomConfig item dir
        let x := toWorldX newX s.design.roomConfig.width item.width
        let z := toWorldZ newY s.design.roomConfig.height item.height
        let modelFound := s.scene.any (fun n => n.itemId == some sid)
        let scene1 := s.scene.map (fun n =>
          if n.itemId == some sid then { n with posX := x, posZ := z } else n)
        if modelFound then
          { s with
            design := { s.design with
              furniture := s.design.furniture.set idx { item with x := newX, y := newY } },
            scene := scene1 }
        else s

/-- `rotateSelectedFurniture(degrees)`: same structure as the move, with
the normalized `newRotation` stored on both the scene node
(`rotation.y = degToRad(newRotation)`, recorded in degrees) and the item. -/
def rotateSelectedFurniture (s : ViewerState) (degrees : ℚ) : ViewerState :=
  match s.selectedModelId with
  | none => s
  | some sid =>
    match jsFindIndex (fun it => it.id == sid) s.design.furniture with
    | none => s
    | some idx =>
      match s.design.furniture[idx]? with
      | none => s
      | some item =>
        let newRotation := normRot (rotOf item + degrees)
        let modelFound := s.scene.any (fun n => n.itemId == some sid)
        let scene1 := s.scene.map (fun n =>
          if n.itemId == some sid then { n with rotYdeg := newRotation } else n)
        if modelFound then
          { s with
            design := { s.design with
              furniture := s.design.furniture.set idx { item with rotation := some newRotation } },
            scene := scene1 }
        else s

/-- The viewer rotation slider handler `updateFurnitureRotation(degrees)`
(slider `min="0" max="360"`, `parseInt` of the slider value): stores the
raw integer degrees with no normalization, on both the scene node and the
item. -/
def updateFurnitureRotationViewer (s : ViewerState) (degrees : ℤ) : ViewerState :=
  match s.selectedModelId with
  | none => s
  | some sid =>
    match jsFindIndex (fun it => it.id == sid) s.design.furniture with
    | none => s
    | some idx =>
      match s.design.furniture[idx]? with
      | none => s
      | some item =>
        let newRotation : ℚ := (degrees : ℚ)
        let modelFound := s.scene.any (fun n => n.itemId == some sid)
        let scene1 := s.scene.map (fun n =>
          if n.itemId == some sid then { n with rotYdeg := newRotation } else n)
        if modelFound then
          { s with
            design := { s.design with
              furniture := s.design.furniture.set idx { item with rotation := some newRotation } },
            scene := scene1 }
        else s

/-! ## Concrete sample data for witnesses and counterexamples -/

/-- The seeded `Living Room` room configuration. -/
def sampleRoom : RoomConfig := ⟨500, 400, "#F5F5DC", some "#F5F5F5"⟩

/-- A sofa item placed as in the seeded `Living Room` design, already
rotated to 300 degrees. -/
def sampleSofa : FurnitureItem :=
  ⟨1, 50, 50, 100, 60, "#8B4513", "Sofa", some 300⟩

/-- A second sofa with the same type/color/rotation but different identity
and position. -/
def sampleSofa2 : FurnitureItem :=
  ⟨2, 200, 150, 100, 60, "#8B4513", "Sofa", some 300⟩

/-- A sample design holding the sofa. -/
def sampleDesign : Design :=
  ⟨"1", "Living Room", "2023-05-10", "", "test123", sampleRoom, [sampleSofa]⟩

/-- A scene node rendered for the sofa. -/
def sampleNode : SceneNode := ⟨some 1, 0, 0, 0, 300⟩

/-- A viewer state with the sofa selected and its node present. -/
def sampleViewer : ViewerState := ⟨sampleDesign, [sampleNode], some 1⟩

/-- A viewer state whose scene has no node for the selected id (only an
untagged fallback mesh). -/
def sampleViewerNoNode : ViewerState :=
  ⟨sampleDesign, [⟨none, 0, 0, 0, 0⟩], some 1⟩

/-- A sample partial update renaming the design. -/
def samplePartial : PartialDesign :=
  { id := none, name := some "Renamed", lastModified := none,
    thumbnail := none, userId := none, roomConfig := none, furniture := none }

/-- The edit-synchronization property for a viewer state `s` with selected
id `sid`, move direction `dir` and rotation step `degs`: when no scene
node carries the id, both edits leave the entire state untouched (the
abandoned-edit case); when some node does and the furniture item exists at
index `idx`, the move stores the clamped new position on the item while
every node carrying the id sits at exactly that position's world
conversion, and the rotate stores the normalized rotation on the item
while every node carrying the id has exactly that rotation (in degrees,
the argument of `degToRad`). -/
def EditSyncProp (s : ViewerState) (sid : ℤ) (dir : Direction) (degs : ℚ) : Prop :=
  ((∀ n ∈ s.scene, n.itemId ≠ some sid) →
    moveSelectedFurniture s dir = s ∧ rotateSelectedFurniture s degs = s)
  ∧ (∀ idx item,
      jsFindIndex (fun it => it.id == sid) s.design.furniture = some idx →
      s.design.furniture[idx]? = some item →
      (∃ n ∈ s.scene, n.itemId = some sid) →
      ((moveSelectedFurniture s dir).design.furniture[idx]?
          = some { item with x := moveNewX s.design.roomConfig item dir,
                             y := moveNewY s.design.roomConfig item dir }
        ∧ ∀ n ∈ (moveSelectedFurniture s dir).scene, n.itemId = some sid →
            n.posX = toWorldX (moveNewX s.design.roomConfig item dir)
                       s.design.roomConfig.width item.width
            ∧ n.posZ = toWorldZ (moveNewY s.design.roomConfig item dir)
                       s.design.roomConfig.height item.height)
      ∧ ((rotateSelectedFurniture s degs).design.furniture[idx]?
          = some { item with rotation := some (normRot (rotOf item + degs)) }
        ∧ ∀ n ∈ (rotateSelectedFurniture s degs).scene, n.itemId = some sid →
            n.rotYdeg = normRot (rotOf item + degs)))

/-- The invariant one `generatePreviews` pass maintains (relative to the
initial preview map `prev`) after processing the prefix `processed` of the
furniture list, assuming every generation succeeds: the call log is
duplicate-free, it contains exactly the keys of processed items that were
not initially cached, and a key is now cached iff it was initially cached
or was called. -/
def PassInv (prev : List (String × String)) (processed : List FurnitureItem)
    (st : GenState) : Prop :=
  st.callLog.Nodup
  ∧ (∀ k, k ∈ st.callLog ↔
      (prev.lookup k = none ∧ ∃ it ∈ processed, itemCacheKey it = k))
  ∧ (∀ k, st.newPreviews.lookup k ≠ none ↔
      (prev.lookup k ≠ none ∨ k ∈ st.callLog))

/-! ## Helper lemmas -/

theorem jsFindIndex_lt_length {α : Type} {p : α → Bool} {l : List α} {i : ℕ}
    (h : jsFindIndex p l = some i) : i < l.length := by
  induction l generalizing i with
  | nil => simp [jsFindIndex] at h
  | cons a as ih =>
    simp only [jsFindIndex] at h
    split at h
    · cases h; simp
    · obtain ⟨j, hj, rfl⟩ := Option.map_eq_some.mp h
      simpa using Nat.succ_lt_succ (ih hj)

theorem jsFindIndex_sat {α : Type} {p : α → Bool} {l : List α} {i : ℕ} {a : α}
    (h : jsFindIndex p l = some i) (hg : l[i]? = some a) : p a = true := by
  induction l generalizing i with
  | nil => simp [jsFindIndex] at h
  | cons b bs ih =>
    simp only [jsFindIndex] at h
    split at h
    · cases h
      simp only [List.getElem?_cons_zero, Option.some_inj] at hg
      subst hg; assumption
    · obtain ⟨j, hj, rfl⟩ := Option.map_eq_some.mp h
      exact ih hj (by simpa using hg)

theorem jsFindIndex_eq_none {α : Type} {p : α → Bool} {l : List α}
    (h : ∀ a ∈ l, p a = false) : jsFindIndex p l = none := by
  induction l with
  | nil => rfl
  | cons a as ih =>
    simp [jsFindIndex, h a (by simp), ih fun b hb => h b (List.mem_cons_of_mem _ hb)]

theorem jsRem360_bounds (x : ℚ) : -360 < jsRem x 360 ∧ jsRem x 360 < 360 := by
  unfold jsRem jsTrunc
  split
  · have h1 : x / 360 - ⌊x / 360⌋ < 1 := by
      have := Int.fract_lt_one (x / 360); unfold Int.fract at this; linarith
    have h2 : (0:ℚ) ≤ x / 360 - ⌊x / 360⌋ := by
      have := Int.fract_nonneg (x / 360); unfold Int.fract at this; linarith
    constructor <;> linarith
  · have h1 : x / 360 ≤ ⌈x / 360⌉ := Int.le_ceil _
    have h2 : (⌈x / 360⌉ : ℚ) < x / 360 + 1 := Int.ceil_lt_add_one _
    constructor <;> linarith

theorem normRot_bounds (x : ℚ) : 0 ≤ normRot x ∧ normRot x < 360 := by
  have h := jsRem360_bounds x
  simp only [normRot]
  split
  · constructor <;> linarith [h.1, h.2]
  · next hn => exact ⟨not_lt.mp hn, h.2⟩

/-! ## Claim C1 — editor-to-world conversion -/

/-- C1 (counterexample): converting editor x = 250 for an item of width
100 in a room of width 500 with scale 0.02 yields world X = 1, not the
-2.0 the claim asserts as the regression baseline. -/
theorem toWorld_baseline_counterexample :
    toWorldX 250 500 100 = 1 ∧ toWorldX 250 500 100 ≠ -2 := by
  constructor <;> norm_num [toWorldX, scale]

/-- C1 (amended): the conversion applies
`world_x = editorX*scale - roomWidth*scale/2 + itemWidth*scale/2` (and the
analogue for Z from editorY/roomHeight) with the fixed scale 0.02, and at
the spec's concrete input (editor x = 250, item width 100, room width 500)
it yields world X = 1.0 (the spec's claimed -2.0 is a miscalculation:
250·0.02 − 5 + 1 = 1). -/
theorem toWorld_conversion :
    (∀ editorX roomW itemW : ℚ,
      toWorldX editorX roomW itemW
        = editorX * (2/100) - roomW * (2/100) / 2 + itemW * (2/100) / 2)
    ∧ (∀ editorY roomH itemH : ℚ,
      toWorldZ editorY roomH itemH
        = editorY * (2/100) - roomH * (2/100) / 2 + itemH * (2/100) / 2)
    ∧ toWorldX 250 500 100 = 1 := by
  refine ⟨fun a b c => rfl, fun a b c => rfl, ?_⟩
  norm_num [toWorldX, scale]

/-! ## Claim C3 — keyboard moves are clamped to the room -/

/-- C3: for an item whose bounds lie within the room, every
keyboard/button move keeps its bounds within `[0, roomWidth] ×
[0, roomHeight]` (position stays in `[0, roomWidth − width] ×
[0, roomHeight − height]`); moving left at `x = 0` leaves `x = 0`, and a
right move never produces an x beyond `roomWidth − width` for any item. -/
theorem move_clamped (rc : RoomConfig) (item : FurnitureItem)
    (hx0 : 0 ≤ item.x) (hxW : item.x ≤ rc.width - item.width)
    (hy0 : 0 ≤ item.y) (hyH : item.y ≤ rc.height - item.height) :
    (∀ dir, 0 ≤ moveNewX rc item dir
      ∧ moveNewX rc item dir ≤ rc.width - item.width
      ∧ 0 ≤ moveNewY rc item dir
      ∧ moveNewY rc item dir ≤ rc.height - item.height)
    ∧ (item.x = 0 → moveNewX rc item Direction.left = 0)
    ∧ (∀ it : FurnitureItem, moveNewX rc it Direction.right ≤ rc.width - it.width) := by
  have hW : (0:ℚ) ≤ rc.width - item.width := le_trans hx0 hxW
  have hH : (0:ℚ) ≤ rc.height - item.height := le_trans hy0 hyH
  refine ⟨?_, ?_, ?_⟩
  · intro dir
    cases dir <;> simp only [moveNewX, moveNewY, moveDistance]
    · exact ⟨le_max_left _ _, max_le hW (by linarith), hy0, hyH⟩
    · exact ⟨le_min hW (by linarith), min_le_left _ _, hy0, hyH⟩
    · exact ⟨hx0, hxW, le_max_left _ _, max_le hH (by linarith)⟩
    · exact ⟨hx0, hxW, le_min hH (by linarith), min_le_left _ _⟩
  · intro hx
    simp only [moveNewX, moveDistance, hx]
    rw [max_eq_left (by norm_num)]
  · intro it
    simp only [moveNewX]
    exact min_le_left _ _

/-- Witness for C3 at the sample sofa in the sample room. -/
theorem move_clamped_witness :
    (0 ≤ sampleSofa.x ∧ sampleSofa.x ≤ sampleRoom.width - sampleSofa.width
      ∧ 0 ≤ sampleSofa.y ∧ sampleSofa.y ≤ sampleRoom.height - sampleSofa.height)
    ∧ ((∀ dir, 0 ≤ moveNewX sampleRoom sampleSofa dir
        ∧ moveNewX sampleRoom sampleSofa dir ≤ sampleRoom.width - sampleSofa.width
        ∧ 0 ≤ moveNewY sampleRoom sampleSofa dir
        ∧ moveNewY sampleRoom sampleSofa dir ≤ sampleRoom.height - sampleSofa.height)
      ∧ (sampleSofa.x = 0 → moveNewX sampleRoom sampleSofa Direction.left = 0)
      ∧ (∀ it : FurnitureItem,
          moveNewX sampleRoom it Direction.right ≤ sampleRoom.width - it.width)) :=
  ⟨⟨by norm_num [sampleSofa], by norm_num [sampleSofa, sampleRoom],
    by norm_num [sampleSofa], by norm_num [sampleSofa, sampleRoom]⟩,
   move_clamped sampleRoom sampleSofa (by norm_num [sampleSofa])
     (by norm_num [sampleSofa, sampleRoom]) (by norm_num [sampleSofa])
     (by norm_num [sampleSofa, sampleRoom])⟩

/-! ## Claim C9 — catalog lookup never fails; default for unrecognized -/

/-- C9 (counterexample): bracket access on the catalog objects walks the
prototype chain, and `Object.prototype` members are truthy, so the `||`
default is bypassed: looking up the name `constructor` — not a catalog
key — returns the inherited `constructor` property from every table, not
the explicit `default` entry. -/
theorem catalog_proto_counterexample :
    getModelPath "constructor" = .protoProp "constructor"
    ∧ getModelPath "constructor" ≠ .val "/models/cube.glb"
    ∧ "constructor" ∉ knownTypeNames
    ∧ getModelConfig "constructor"
        = ⟨.protoProp "constructor", .protoProp "constructor",
           .protoProp "constructor"⟩
    ∧ getTopDownViewSettings "constructor" = .protoProp "constructor" := by
  exact ⟨rfl, by decide, by decide, rfl, rfl⟩

/-- C9 (amended): the catalog lookups are total functions of the type
name — modelled as such, mirroring `TABLE[type] || TABLE.default`, which
evaluates without throwing on every string — and for any name that is
neither a catalog key nor an inherited `Object.prototype` member they
return exactly the explicit `default` entries: cube model path, scale
0.5, yPosition 0, rotation 0, top-down settings (8, 0, 1.2).  For
`Object.prototype` member names (`constructor`, `toString`, ...) the
truthy inherited property bypasses the `||` and is returned instead of
the default (see the counterexample). -/
theorem catalog_lookup_default (t : String) (h : t ∉ knownTypeNames)
    (hp : t ∉ objectPrototypeKeys) :
    getModelPath t = .val "/models/cube.glb"
    ∧ getModelConfig t = ⟨.val (5/10), .val 0, .val 0⟩
    ∧ getTopDownViewSettings t = .val ⟨8, 0, 12/10⟩ := by
  simp only [knownTypeNames, List.mem_cons, not_or, List.not_mem_nil,
    not_false_iff, and_true] at h
  obtain ⟨h1, h2, h3, h4, h5, h6, h7⟩ := h
  have b1 : (t == "Sofa") = false := beq_eq_false_iff_ne.mpr h1
  have b2 : (t == "Table") = false := beq_eq_false_iff_ne.mpr h2
  have b3 : (t == "Bed") = false := beq_eq_false_iff_ne.mpr h3
  have b4 : (t == "Bookshelf") = false := beq_eq_false_iff_ne.mpr h4
  have b5 : (t == "Dresser") = false := beq_eq_false_iff_ne.mpr h5
  have b6 : (t == "Plant") = false := beq_eq_false_iff_ne.mpr h6
  have b7 : (t == "default") = false := beq_eq_false_iff_ne.mpr h7
  refine ⟨?_, ?_, ?_⟩ <;>
    simp [getModelPath, getModelConfig, getTopDownViewSettings, jsLookupOr,
      jsGet, MODEL_MAP, MODEL_SCALES, MODEL_Y_POSITIONS, MODEL_ROTATIONS,
      TOP_DOWN_ADJUSTMENTS, List.lookup, b1, b2, b3, b4, b5, b6, b7, hp]

/-- Witness for C9 (amended) at the unrecognized, non-prototype type name
`Banana`. -/
theorem catalog_lookup_default_witness :
    ("Banana" ∉ knownTypeNames ∧ "Banana" ∉ objectPrototypeKeys)
    ∧ (getModelPath "Banana" = .val "/models/cube.glb"
      ∧ getModelConfig "Banana" = ⟨.val (5/10), .val 0, .val 0⟩
      ∧ getTopDownViewSettings "Banana" = .val ⟨8, 0, 12/10⟩) :=
  ⟨⟨by decide, by decide⟩,
   catalog_lookup_default "Banana" (by decide) (by decide)⟩

/-! ## Claim C5 — furniture identities -/

/-- C5 (counterexample): `addFurniture` takes the id from `Date.now()`,
so two calls landing in the same millisecond (clock value 1000 twice)
produce two items with the same id — identities are not guaranteed
collision-free at creation time. -/
theorem addFurniture_id_collision :
    ((addFurniture sampleRoom (addFurniture sampleRoom [] "sofa" 1000).1
        "table" 1000).1.map (fun it => it.id)) = [1000, 1000]
    ∧ ¬ ((addFurniture sampleRoom (addFurniture sampleRoom [] "sofa" 1000).1
        "table" 1000).1.Pairwise (fun a b => a.id ≠ b.id)) := by
  refine ⟨rfl, fun h => ?_⟩
  have h2 := List.pairwise_map.mpr h
  rw [show ((addFurniture sampleRoom (addFurniture sampleRoom [] "sofa" 1000).1
      "table" 1000).1.map (fun it => it.id)) = [1000, 1000] from rfl] at h2
  exact absurd h2 (by decide)

/-- C5 (amended): the assigned identity is exactly the `Date.now()`
timestamp; whenever the creation clock value differs from every id already
in the list (in particular, when the millisecond clock is strictly
monotone across calls), pairwise distinctness of ids is preserved. -/
theorem addFurniture_fresh_ids (rc : RoomConfig) (furniture : List FurnitureItem)
    (ftype : String) (now : ℤ)
    (hfresh : ∀ it ∈ furniture, it.id ≠ now)
    (hdistinct : furniture.Pairwise (fun a b => a.id ≠ b.id)) :
    (addFurniture rc furniture ftype now).2 = now
    ∧ (addFurniture rc furniture ftype now).1.Pairwise (fun a b => a.id ≠ b.id) := by
  refine ⟨rfl, ?_⟩
  unfold addFurniture
  rw [List.pairwise_append]
  refine ⟨hdistinct, by simp, ?_⟩
  intro a ha b hb
  simp only [List.mem_singleton] at hb
  subst hb
  exact hfresh a ha

/-- Witness for C5 (amended): adding a table at clock 1000 to a list
holding the sofa (id 1). -/
theorem addFurniture_fresh_ids_witness :
    ((∀ it ∈ [sampleSofa], it.id ≠ (1000:ℤ))
      ∧ ([sampleSofa].Pairwise (fun a b : FurnitureItem => a.id ≠ b.id)))
    ∧ ((addFurniture sampleRoom [sampleSofa] "table" 1000).2 = 1000
      ∧ (addFurniture sampleRoom [sampleSofa] "table" 1000).1.Pairwise
          (fun a b => a.id ≠ b.id)) :=
  ⟨⟨by decide, by decide⟩,
   addFurniture_fresh_ids sampleRoom [sampleSofa] "table" 1000
     (by decide) (by decide)⟩

/-! ## Claim C7 — NotFound leaves the store unchanged -/

/-- C7: for an id matching no stored design, `getDesign` fails with the
`Design not found` error, and `updateDesign` fails the same way while
returning the stored list unchanged (the write is only reached after the
id check). -/
theorem notfound_store_unchanged (designs : List Design) (id : String)
    (p : PartialDesign) (now : String)
    (h : ∀ d ∈ designs, d.id ≠ id) :
    getDesign designs id = .error "Design not found"
    ∧ updateDesign designs id p now = (designs, .error "Design not found") := by
  have hfind : designs.find? (fun d => d.id == id) = none := by
    rw [List.find?_eq_none]
    intro d hd
    simp [beq_eq_false_iff_ne.mpr (h d hd)]
  have hidx : jsFindIndex (fun d => d.id == id) designs = none :=
    jsFindIndex_eq_none fun d hd => beq_eq_false_iff_ne.mpr (h d hd)
  constructor
  · simp [getDesign, hfind]
  · simp [updateDesign, hidx]

/-- Witness for C7 at the unknown id `999` against a one-design store. -/
theorem notfound_store_unchanged_witness :
    (∀ d ∈ [sampleDesign], d.id ≠ "999")
    ∧ (getDesign [sampleDesign] "999" = .error "Design not found"
      ∧ updateDesign [sampleDesign] "999" samplePartial "2026-10-11"
          = ([sampleDesign], .error "Design not found")) :=
  ⟨by decide,
   notfound_store_unchanged [sampleDesign] "999" samplePartial "2026-10-11"
     (by decide)⟩

/-! ## Claim C8 — removing a non-existent id -/

/-- C8 (counterexample): `deleteSelected` with a selected id absent from
the furniture list leaves the list unchanged but raises a TypeError while
building the `Deleted ...` notification (reading `.name` of the
`undefined` returned by `find`), so an error is raised, contrary to the
claim. -/
theorem delete_nonexistent_counterexample :
    (deleteSelected [sampleSofa] (some 999)).1 = [sampleSofa]
    ∧ (deleteSelected [sampleSofa] (some 999)).2.2
        = some (.error
            "TypeError: Cannot read properties of undefined (reading name)") := by
  exact ⟨rfl, rfl⟩

/-- C8 (amended): `deleteDesign` with an id matching no stored design is a
true no-op returning success (list unchanged, no error); the 2D editor's
`deleteSelected` with a selected id absent from the furniture list leaves
the list unchanged and clears the selection, but throws a TypeError while
building the notification instead of finishing silently. -/
theorem delete_nonexistent (designs : List Design) (id : String)
    (furniture : List FurnitureItem) (sid : ℤ)
    (hd : ∀ d ∈ designs, d.id ≠ id)
    (hf : ∀ it ∈ furniture, it.id ≠ sid) :
    deleteDesign designs id = (designs, true)
    ∧ deleteSelected furniture (some sid)
        = (furniture, none, some (.error
            "TypeError: Cannot read properties of undefined (reading name)")) := by
  have hfilterD : designs.filter (fun d => !(d.id == id)) = designs := by
    rw [List.filter_eq_self]
    intro d hdd
    simp [beq_eq_false_iff_ne.mpr (hd d hdd)]
  have hfind : furniture.find? (fun it => it.id == sid) = none := by
    rw [List.find?_eq_none]
    intro it hit
    simp [beq_eq_false_iff_ne.mpr (hf it hit)]
  have hfilterF : furniture.filter (fun it => !(it.id == sid)) = furniture := by
    rw [List.filter_eq_self]
    intro it hit
    simp [beq_eq_false_iff_ne.mpr (hf it hit)]
  constructor
  · simp [deleteDesign, hfilterD]
  · simp [deleteSelected, hfind, hfilterF]

/-- Witness for C8 (amended): absent ids `999` (design store) and `999`
(furniture list). -/
theorem delete_nonexistent_witness :
    ((∀ d ∈ [sampleDesign], d.id ≠ "999") ∧ (∀ it ∈ [sampleSofa], it.id ≠ (999:ℤ)))
    ∧ (deleteDesign [sampleDesign] "999" = ([sampleDesign], true)
      ∧ deleteSelected [sampleSofa] (some 999)
          = ([sampleSofa], none, some (.error
              "TypeError: Cannot read properties of undefined (reading name)"))) :=
  ⟨⟨by decide, by decide⟩,
   delete_nonexistent [sampleDesign] "999" [sampleSofa] 999 (by decide) (by decide)⟩

/-! ## Claim C10 — updateDesign stores exactly the merge -/

/-- C10: when the id is found at index `idx`, `updateDesign` stores
exactly the stored design overridden by the present fields of the partial
update, with `lastModified` freshly overwritten: absent fields keep their
stored values, present fields (including `id` and `userId`) take the
partial's values, the slot at `idx` is replaced by that merge, and every
other slot is untouched. -/
theorem updateDesign_merges (designs : List Design) (id : String)
    (p : PartialDesign) (now : String) (idx : ℕ) (d : Design)
    (hidx : jsFindIndex (fun d => d.id == id) designs = some idx)
    (hd : designs[idx]? = some d) :
    (updateDesign designs id p now).2 = .ok (mergeDesign d p now)
    ∧ (updateDesign designs id p now).1 = designs.set idx (mergeDesign d p now)
    ∧ ((updateDesign designs id p now).1)[idx]? = some (mergeDesign d p now)
    ∧ (∀ j, j ≠ idx → ((updateDesign designs id p now).1)[j]? = designs[j]?)
    ∧ (mergeDesign d p now).lastModified = now
    ∧ (mergeDesign d p now).id = p.id.getD d.id
    ∧ (mergeDesign d p now).name = p.name.getD d.name
    ∧ (mergeDesign d p now).thumbnail = p.thumbnail.getD d.thumbnail
    ∧ (mergeDesign d p now).userId = p.userId.getD d.userId
    ∧ (mergeDesign d p now).roomConfig = p.roomConfig.getD d.roomConfig
    ∧ (mergeDesign d p now).furniture = p.furniture.getD d.furniture := by
  have hlen : idx < designs.length := jsFindIndex_lt_length hidx
  refine ⟨?_, ?_, ?_, ?_, rfl, rfl, rfl, rfl, rfl, rfl, rfl⟩
  · simp [updateDesign, hidx, hd]
  · simp [updateDesign, hidx, hd]
  · simp [updateDesign, hidx, hd, List.getElem?_set_self, hlen]
  · intro j hj
    simp [updateDesign, hidx, hd, List.getElem?_set_ne (Ne.symm hj)]

/-- Witness for C10: renaming the sample design stored at index 0. -/
theorem updateDesign_merges_witness :
    (jsFindIndex (fun d => d.id == "1") [sampleDesign] = some 0
      ∧ [sampleDesign][0]? = some sampleDesign)
    ∧ ((updateDesign [sampleDesign] "1" samplePartial "2026-10-11").2
        = .ok (mergeDesign sampleDesign samplePartial "2026-10-11")
      ∧ (updateDesign [sampleDesign] "1" samplePartial "2026-10-11").1
        = [sampleDesign].set 0 (mergeDesign sampleDesign samplePartial "2026-10-11")
      ∧ ((updateDesign [sampleDesign] "1" samplePartial "2026-10-11").1)[0]?
        = some (mergeDesign sampleDesign samplePartial "2026-10-11")
      ∧ (∀ j, j ≠ 0 →
          ((updateDesign [sampleDesign] "1" samplePartial "2026-10-11").1)[j]?
            = [sampleDesign][j]?)
      ∧ (mergeDesign sampleDesign samplePartial "2026-10-11").lastModified = "2026-10-11"
      ∧ (mergeDesign sampleDesign samplePartial "2026-10-11").id
        = samplePartial.id.getD sampleDesign.id
      ∧ (mergeDesign sampleDesign samplePartial "2026-10-11").name
        = samplePartial.name.getD sampleDesign.name
      ∧ (mergeDesign sampleDesign samplePartial "2026-10-11").thumbnail
        = samplePartial.thumbnail.getD sampleDesign.thumbnail
      ∧ (mergeDesign sampleDesign samplePartial "2026-10-11").userId
        = samplePartial.userId.getD sampleDesign.userId
      ∧ (mergeDesign sampleDesign samplePartial "2026-10-11").roomConfig
        = samplePartial.roomConfig.getD sampleDesign.roomConfig
      ∧ (mergeDesign sampleDesign samplePartial "2026-10-11").furniture
        = samplePartial.furniture.getD sampleDesign.furniture) :=
  ⟨⟨rfl, rfl⟩,
   updateDesign_merges [sampleDesign] "1" samplePartial "2026-10-11" 0 sampleDesign
     rfl rfl⟩

/-! ## Claim C2 — rotation stays in [0, 360) -/

theorem jsRem360_nonneg (x : ℚ) (hx : 0 ≤ x) : 0 ≤ jsRem x 360 := by
  unfold jsRem jsTrunc
  have hq : (0:ℚ) ≤ x / 360 := by positivity
  rw [if_pos hq]
  have h2 : (0:ℚ) ≤ x / 360 - ⌊x / 360⌋ := by
    have := Int.fract_nonneg (x / 360); unfold Int.fract at this; linarith
  linarith

/-- C2 (counterexample): the viewer's rotation slider handler stores the
raw `parseInt` of the slider value (range 0–360) with no normalization;
committing slider position 360 on the selected sofa stores rotation 360,
which is not in [0, 360). -/
theorem rotation_slider_counterexample :
    ((updateFurnitureRotationViewer sampleViewer 360).design.furniture.map
      (fun it => it.rotation)) = [some 360]
    ∧ ¬ ((360:ℚ) < 360) := by
  refine ⟨?_, by norm_num⟩
  rfl

/-- C2 (amended): the step rotations are normalized — `normRot` (the
`(current + degrees) % 360`, `+360` fixup of `rotateSelectedFurniture`)
always lands in [0, 360), and applying +90 to a stored 300 yields 30;
every item `rotateSelectedFurniture` writes carries a rotation in
[0, 360); and the editor r-key expression `(current + 15) % 360` lands in
[0, 360) for the non-negative stored rotations those steps produce.  The
rotation slider and the 2D transform-handle commit, by contrast, store
their raw input unnormalized (see the counterexample). -/
theorem rotation_steps_normalized :
    (∀ x : ℚ, 0 ≤ normRot x ∧ normRot x < 360)
    ∧ normRot (300 + 90) = 30
    ∧ (∀ (s : ViewerState) (degs : ℚ),
        ∀ it ∈ (rotateSelectedFurniture s degs).design.furniture,
          it ∈ s.design.furniture
          ∨ ∃ r, it.rotation = some r ∧ 0 ≤ r ∧ r < 360)
    ∧ (∀ cur : ℚ, 0 ≤ cur →
        0 ≤ jsRem (cur + 15) 360 ∧ jsRem (cur + 15) 360 < 360) := by
  refine ⟨normRot_bounds, by norm_num [normRot, jsRem, jsTrunc], ?_, ?_⟩
  · intro s degs it hit
    rcases hsel : s.selectedModelId with _ | sid
    · simp only [rotateSelectedFurniture, hsel] at hit
      exact .inl hit
    · rcases hidx : jsFindIndex (fun x => x.id == sid) s.design.furniture with _ | idx
      · simp only [rotateSelectedFurniture, hsel, hidx] at hit
        exact .inl hit
      · rcases hget : s.design.furniture[idx]? with _ | item
        · simp only [rotateSelectedFurniture, hsel, hidx, hget] at hit
          exact .inl hit
        · by_cases hfound : s.scene.any (fun n => n.itemId == some sid)
          · simp only [rotateSelectedFurniture, hsel, hidx, hget, hfound,
              if_true] at hit
            rcases List.mem_or_eq_of_mem_set hit with hmem | heq
            · exact .inl hmem
            · refine .inr ⟨normRot (rotOf item + degs), ?_, normRot_bounds _⟩
              rw [heq]
          · rw [Bool.not_eq_true] at hfound
            simp only [rotateSelectedFurniture, hsel, hidx, hget, hfound,
              Bool.false_eq_true, if_false] at hit
            exact .inl hit
  · intro cur hcur
    exact ⟨jsRem360_nonneg _ (by linarith), (jsRem360_bounds _).2⟩

/-- Witness for C2 (amended), instantiating the conditional conjunct at
the stored rotation 300. -/
theorem rotation_steps_normalized_witness :
    (0:ℚ) ≤ 300
    ∧ (0 ≤ jsRem ((300:ℚ) + 15) 360 ∧ jsRem ((300:ℚ) + 15) 360 < 360)
    ∧ normRot (300 + 90) = 30 :=
  ⟨by norm_num, rotation_steps_normalized.2.2.2 300 (by norm_num),
   rotation_steps_normalized.2.1⟩

/-! ## Claim C4 — 3D transform and data model never diverge -/

/-- C4: with an item selected, every keyboard/button move or rotate either
finds a scene node for the selected id and updates the 3D transform and
the in-memory item consistently (node transform = world conversion of the
stored editor position, node rotation = stored rotation), or finds none
and leaves the whole state — data model included — completely unchanged. -/
theorem viewer_edit_sync (s : ViewerState) (sid : ℤ) (dir : Direction)
    (degs : ℚ) (hsel : s.selectedModelId = some sid) :
    EditSyncProp s sid dir degs := by
  constructor
  · intro hnone
    have hany : s.scene.any (fun n => n.itemId == some sid) = false := by
      rw [List.any_eq_false]
      intro n hn
      simp [hnone n hn]
    constructor
    · rcases hidx : jsFindIndex (fun it => it.id == sid) s.design.furniture with _ | idx
      · simp only [moveSelectedFurniture, hsel, hidx]
      · rcases hget : s.design.furniture[idx]? with _ | item
        · simp only [moveSelectedFurniture, hsel, hidx, hget]
        · simp only [moveSelectedFurniture, hsel, hidx, hget, hany,
            Bool.false_eq_true, if_false]
    · rcases hidx : jsFindIndex (fun it => it.id == sid) s.design.furniture with _ | idx
      · simp only [rotateSelectedFurniture, hsel, hidx]
      · rcases hget : s.design.furniture[idx]? with _ | item
        · simp only [rotateSelectedFurniture, hsel, hidx, hget]
        · simp only [rotateSelectedFurniture, hsel, hidx, hget, hany,
            Bool.false_eq_true, if_false]
  · intro idx item hidx hget hex
    have hany : s.scene.any (fun n => n.itemId == some sid) = true := by
      rw [List.any_eq_true]
      obtain ⟨n, hn, hni⟩ := hex
      exact ⟨n, hn, by simp [hni]⟩
    have hlen : idx < s.design.furniture.length := jsFindIndex_lt_length hidx
    refine ⟨⟨?_, ?_⟩, ?_, ?_⟩
    · simp only [moveSelectedFurniture, hsel, hidx, hget, hany, if_true]
      simp [List.getElem?_set_self, hlen]
    · intro n hn hni
      simp only [moveSelectedFurniture, hsel, hidx, hget, hany, if_true] at hn
      obtain ⟨m, hm, rfl⟩ := List.mem_map.mp hn
      by_cases hmi : (m.itemId == some sid) = true
      · rw [if_pos hmi]
        exact ⟨rfl, rfl⟩
      · rw [if_neg hmi] at hni
        exact absurd (by simp [hni]) hmi
    · simp only [rotateSelectedFurniture, hsel, hidx, hget, hany, if_true]
      simp [List.getElem?_set_self, hlen]
    · intro n hn hni
      simp only [rotateSelectedFurniture, hsel, hidx, hget, hany, if_true] at hn
      obtain ⟨m, hm, rfl⟩ := List.mem_map.mp hn
      by_cases hmi : (m.itemId == some sid) = true
      · rw [if_pos hmi]
      · rw [if_neg hmi] at hni
        exact absurd (by simp [hni]) hmi

/-- Witness for C4 at the sample viewer (sofa selected, node present). -/
theorem viewer_edit_sync_witness :
    sampleViewer.selectedModelId = some 1
    ∧ EditSyncProp sampleViewer 1 Direction.left 90 :=
  ⟨rfl, viewer_edit_sync sampleViewer 1 Direction.left 90 rfl⟩

/-! ## Claim C6 — cache keys and preview deduplication -/

theorem lookup_cons_eq {β : Type} (k a : String) (b : β) (t : List (String × β)) :
    List.lookup k ((a, b) :: t)
      = if (k == a) = true then some b else List.lookup k t := by
  by_cases h : (k == a) = true
  · simp [List.lookup, h]
  · rw [Bool.not_eq_true] at h
    simp [List.lookup, h]

theorem lookup_append_ne_none {β : Type} (k : String) (l1 l2 : List (String × β)) :
    (List.lookup k (l1 ++ l2) ≠ none)
      ↔ (List.lookup k l1 ≠ none ∨ List.lookup k l2 ≠ none) := by
  induction l1 with
  | nil => simp
  | cons p t ih =>
    rcases p with ⟨a, b⟩
    rw [List.cons_append, lookup_cons_eq, lookup_cons_eq]
    by_cases h : (k == a) = true
    · simp [h]
    · rw [Bool.not_eq_true] at h
      simp [h, ih]

theorem lookup_singleton_ne_none {β : Type} (k a : String) (b : β) :
    (List.lookup k [(a, b)] ≠ none) ↔ k = a := by
  rw [lookup_cons_eq]
  by_cases h : (k == a) = true
  · simp [h, beq_iff_eq.mp h]
  · rw [Bool.not_eq_true] at h
    have hne : k ≠ a := fun heq => by simp [heq] at h
    simp [h, hne]

theorem createTopDownImage_some (producer : String → String → ℚ → Option String)
    (hp : ∀ n f r, (producer n f r).isSome = true)
    (cache : List (String × String)) (n f : String) (r : ℚ) :
    ∃ u rest, createTopDownImage producer cache n f r = (some u, rest) := by
  rcases hl : cache.lookup (cacheKey n f r) with _ | v
  · rcases hpro : producer n f r with _ | u
    · exact absurd (hp n f r) (by simp [hpro])
    · exact ⟨u, ((cacheKey n f r, u) :: cache, true),
        by simp only [createTopDownImage, hl, hpro]⟩
  · exact ⟨v, (cache, false), by simp only [createTopDownImage, hl]⟩

theorem generatePreviewsStep_inv (producer : String → String → ℚ → Option String)
    (hp : ∀ n f r, (producer n f r).isSome = true)
    (prev : List (String × String)) (processed : List FurnitureItem)
    (st : GenState) (i : FurnitureItem) (h : PassInv prev processed st) :
    PassInv prev (processed ++ [i]) (generatePreviewsStep producer st i) := by
  obtain ⟨ha, hb, hc⟩ := h
  rcases hl : st.newPreviews.lookup (itemCacheKey i) with _ | v
  · -- not yet in the pass-local map: a generation call is issued
    obtain ⟨u, ⟨c1, b1⟩, hcti⟩ :=
      createTopDownImage_some producer hp st.topDownCache i.name i.fill (rotOf i)
    have hst : generatePreviewsStep producer st i
        = ⟨st.newPreviews ++ [(itemCacheKey i, u)], c1,
           st.callLog ++ [itemCacheKey i]⟩ := by
      simp only [generatePreviewsStep, hl, hcti]
    have hnc : ¬ (st.newPreviews.lookup (itemCacheKey i) ≠ none) := by
      rw [hl]; simp
    have hknew : prev.lookup (itemCacheKey i) = none
        ∧ itemCacheKey i ∉ st.callLog := by
      constructor
      · by_contra hne
        exact hnc ((hc (itemCacheKey i)).mpr (.inl hne))
      · intro hmem
        exact hnc ((hc (itemCacheKey i)).mpr (.inr hmem))
    rw [hst]
    refine ⟨?_, ?_, ?_⟩
    · refine List.nodup_append.mpr ⟨ha, List.nodup_singleton _, ?_⟩
      intro a hal has
      simp only [List.mem_singleton] at has
      subst has
      exact hknew.2 hal
    · intro k
      constructor
      · intro hk
        rcases List.mem_append.mp hk with hlog | hone
        · obtain ⟨hnone, it, hit, hkey⟩ := (hb k).mp hlog
          exact ⟨hnone, it, List.mem_append_left _ hit, hkey⟩
        · simp only [List.mem_singleton] at hone
          subst hone
          exact ⟨hknew.1, i, List.mem_append_right _ (by simp), rfl⟩
      · rintro ⟨hnone, it, hit, hkey⟩
        rcases List.mem_append.mp hit with hmem | hmem
        · exact List.mem_append_left _ ((hb k).mpr ⟨hnone, it, hmem, hkey⟩)
        · simp only [List.mem_singleton] at hmem
          subst hmem
          subst hkey
          exact List.mem_append_right _ (by simp)
    · intro k
      rw [lookup_append_ne_none, lookup_singleton_ne_none, hc k]
      simp only [List.mem_append, List.mem_singleton]
      tauto
  · -- already in the pass-local map: no call, state unchanged
    have hst : generatePreviewsStep producer st i = st := by
      simp only [generatePreviewsStep, hl]
    rw [hst]
    refine ⟨ha, ?_, hc⟩
    intro k
    constructor
    · intro hk
      obtain ⟨hnone, it, hit, hkey⟩ := (hb k).mp hk
      exact ⟨hnone, it, List.mem_append_left _ hit, hkey⟩
    · rintro ⟨hnone, it, hit, hkey⟩
      rcases List.mem_append.mp hit with hmem | hmem
      · exact (hb k).mpr ⟨hnone, it, hmem, hkey⟩
      · simp only [List.mem_singleton] at hmem
        subst hmem
        subst hkey
        have hcached : st.newPreviews.lookup (itemCacheKey it) ≠ none := by
          rw [hl]; simp
        rcases (hc _).mp hcached with hprev | hlog
        · exact absurd hnone hprev
        · exact hlog

theorem generatePreviews_foldl_inv (producer : String → String → ℚ → Option String)
    (hp : ∀ n f r, (producer n f r).isSome = true)
    (prev : List (String × String)) (furniture : List FurnitureItem) :
    ∀ (processed : List FurnitureItem) (st : GenState),
      PassInv prev processed st →
      PassInv prev (processed ++ furniture)
        (furniture.foldl (generatePreviewsStep producer) st) := by
  induction furniture with
  | nil => intro processed st h; simpa using h
  | cons i rest ih =>
    intro processed st h
    rw [List.foldl_cons]
    have h3 := ih (processed ++ [i]) _
      (generatePreviewsStep_inv producer hp prev processed st i h)
    rwa [List.append_assoc, List.singleton_append] at h3

/-- C6 (counterexample): when a generation fails (the `catch` path
returning `null`, modelled by the always-`none` producer), a later item
sharing the CacheKey re-triggers generation within the same pass: two
sofas with equal type/color/rotation but different ids and positions
produce two generation calls for the one key, not exactly one. -/
theorem preview_retry_counterexample :
    (generatePreviews (fun _ _ _ => none) [] [] [sampleSofa, sampleSofa2]).callLog
      = [itemCacheKey sampleSofa, itemCacheKey sampleSofa]
    ∧ itemCacheKey sampleSofa = itemCacheKey sampleSofa2
    ∧ sampleSofa.id ≠ sampleSofa2.id
    ∧ (generatePreviews (fun _ _ _ => none) [] []
        [sampleSofa, sampleSofa2]).callLog.count (itemCacheKey sampleSofa) = 2 := by
  exact ⟨rfl, rfl, by decide, rfl⟩

/-- C6 (amended): items with equal (type name, fill color, rotation)
resolve to the same CacheKey regardless of identity and position; and
provided every generation succeeds (non-null image), one
`generatePreviews` pass issues exactly one generation call per CacheKey —
the call log is duplicate-free and contains precisely the keys of
processed items that were not already in the preview map.  (The loop
awaits each generation, so requests within a pass are serialized; a
failed generation is retried for each later item sharing the key, see the
counterexample.) -/
theorem previews_same_key_one_call (producer : String → String → ℚ → Option String)
    (hp : ∀ n f r, (producer n f r).isSome = true)
    (prev cache0 : List (String × String)) (furniture : List FurnitureItem) :
    (∀ i1 i2 : FurnitureItem, i1.name = i2.name → i1.fill = i2.fill →
      rotOf i1 = rotOf i2 → itemCacheKey i1 = itemCacheKey i2)
    ∧ (generatePreviews producer prev cache0 furniture).callLog.Nodup
    ∧ (∀ k, k ∈ (generatePreviews producer prev cache0 furniture).callLog ↔
        (prev.lookup k = none ∧ ∃ it ∈ furniture, itemCacheKey it = k)) := by
  have hinv0 : PassInv prev [] ⟨prev, cache0, []⟩ := by
    refine ⟨List.nodup_nil, ?_, ?_⟩
    · intro k; simp
    · intro k; simp
  have hfin := generatePreviews_foldl_inv producer hp prev furniture [] _ hinv0
  rw [List.nil_append] at hfin
  refine ⟨?_, hfin.1, hfin.2.1⟩
  intro i1 i2 hn hf hr
  unfold itemCacheKey cacheKey
  rw [hn, hf, hr]

/-- Witness for C6 (amended): an always-succeeding producer over the two
same-key sofas. -/
theorem previews_same_key_one_call_witness :
    (∀ n f r, ((fun (_ : String) (_ : String) (_ : ℚ) => some "img") n f r).isSome
      = true)
    ∧ ((∀ i1 i2 : FurnitureItem, i1.name = i2.name → i1.fill = i2.fill →
        rotOf i1 = rotOf i2 → itemCacheKey i1 = itemCacheKey i2)
      ∧ (generatePreviews (fun _ _ _ => some "img") [] []
          [sampleSofa, sampleSofa2]).callLog.Nodup
      ∧ (∀ k, k ∈ (generatePreviews (fun _ _ _ => some "img") [] []
            [sampleSofa, sampleSofa2]).callLog ↔
          (List.lookup k ([] : List (String × String)) = none
            ∧ ∃ it ∈ [sampleSofa, sampleSofa2], itemCacheKey it = k))) :=
  ⟨fun _ _ _ => rfl,
   previews_same_key_one_call (fun _ _ _ => some "img") (fun _ _ _ => rfl) [] []
     [sampleSofa, sampleSofa2]⟩

end FurnitureViz
